import Mathlib

/-!
User-level IPC library (lib/ipc.c)

A shallow embedding of the three routines of `lib/ipc.c`:
`ipc_recv`, `ipc_send` and `ipc_find_env`.

The routines talk to the kernel through system calls and to the caller
through output pointers.  The embedding is explicit state passing over a
`World`: the user memory cells, the list of observable events performed so
far (system calls, stores through output pointers, the halt report), and the
kernel's answers to the upcoming try-send requests.

Constants and macros of `inc/` that `lib/ipc.c` uses (`UTOP`, `NENV`, `ENVX`,
`E_IPC_NOT_RECV`) are parameters of the routines that use them.
-/

namespace IPC

/-! ## Data model -/

/-- The null pointer. -/
def NULL : Nat := 0

/-- The fields of `struct Env` that `lib/ipc.c` reads.
`env_ipc_value` is a `uint32_t`, the identifiers are `envid_t` (`int32_t`),
`env_type` is an `enum EnvType` and `env_ipc_perm` an `int`. -/
structure Env where
  env_id : Int
  env_type : Int
  env_ipc_value : Nat
  env_ipc_from : Int
  env_ipc_perm : Int
  deriving DecidableEq, Repr

/-- Observable actions of the library routines, in program order. -/
inductive Event where
  | sys_ipc_recv (dstva : Nat)
  | sys_getenvid
  | sys_ipc_try_send (to_env : Int) (val : Nat) (srcva : Nat) (perm : Int)
  | sys_yield
  | store (addr : Nat) (v : Int)
  | panic (fmt : String) (args : List Int)
  deriving DecidableEq, Repr

/-- How a call ends: it returns a value to its caller, it halts the process
(`panic` does not return), or the model ran out of loop fuel. -/
inductive Outcome (α : Type) where
  | returned (v : α)
  | halted
  | outOfFuel
  deriving DecidableEq, Repr

/-- The kernel as seen by one call of `ipc_recv` or `ipc_find_env`:
the answer of `sys_ipc_recv` for a given destination address, the identifier
`sys_getenvid` reports, and the content of the `envs` array when the library
reads it (for `ipc_recv`: after the receive request came back). -/
structure Kernel where
  recvAnswer : Nat → Int
  envid : Int
  envs : Nat → Env

/-- The state threaded through a call. -/
structure World where
  mem : Nat → Int
  trace : List Event
  sendAnswers : Nat → Int

/-! ## System calls and stores -/

/-- The call `sys_ipc_recv(dstva)`: records the request, yields the answer. -/
def sys_ipc_recv (k : Kernel) (dstva : Nat) (w : World) : Int × World :=
  (k.recvAnswer dstva, { w with trace := w.trace ++ [Event.sys_ipc_recv dstva] })

/-- The call `sys_getenvid()`. -/
def sys_getenvid (k : Kernel) (w : World) : Int × World :=
  (k.envid, { w with trace := w.trace ++ [Event.sys_getenvid] })

/-- The call `sys_ipc_try_send(to_env, val, srcva, perm)`: records the request
and consumes the kernel's next answer. -/
def sys_ipc_try_send (to_env : Int) (val : Nat) (srcva : Nat) (perm : Int) (w : World) :
    Int × World :=
  (w.sendAnswers 0,
   { w with
     trace := w.trace ++ [Event.sys_ipc_try_send to_env val srcva perm]
     sendAnswers := fun i => w.sendAnswers (i + 1) })

/-- The call `sys_yield()`. -/
def sys_yield (w : World) : World :=
  { w with trace := w.trace ++ [Event.sys_yield] }

/-- The assignment `*addr = v` through an output pointer. -/
def storeInt (addr : Nat) (v : Int) (w : World) : World :=
  { w with
    mem := fun a => if a = addr then v else w.mem a
    trace := w.trace ++ [Event.store addr v] }

/-- The call `panic(fmt, args...)`: records the report; the caller stops. -/
def panic (fmt : String) (args : List Int) (w : World) : World :=
  { w with trace := w.trace ++ [Event.panic fmt args] }

/-- Conversion of a `uint32_t` to `int32_t` (modulo 2^32). -/
def int32_of_uint32 (v : Nat) : Int :=
  if v % 2 ^ 32 < 2 ^ 31 then ((v % 2 ^ 32 : Nat) : Int) else ((v % 2 ^ 32 : Nat) : Int) - 2 ^ 32

/-! ## The routines -/

/-- The routine `ipc_recv(from_env_store, pg, perm_store)`. -/
def ipc_recv (UTOP : Nat) (ENVX : Int → Nat) (k : Kernel)
    (from_env_store pg perm_store : Nat) (w : World) : Outcome Int × World :=
  let (r, w) :=
    if pg ≠ NULL then sys_ipc_recv k pg w
    else sys_ipc_recv k UTOP w
  let (id, w) := sys_getenvid k w
  let curenv := k.envs (ENVX id)
  let w :=
    if from_env_store ≠ NULL then
      storeInt from_env_store (if r < 0 then 0 else curenv.env_ipc_from) w
    else w
  let w :=
    if perm_store ≠ NULL then
      storeInt perm_store (if r < 0 then 0 else curenv.env_ipc_perm) w
    else w
  if r < 0 then (Outcome.returned r, w)
  else (Outcome.returned (int32_of_uint32 curenv.env_ipc_value), w)

/-- The format string of the halt report of `ipc_send`. -/
def ipc_send_fmt : String := "ipc.c/ipc_send() : sys_ipc_try_send error: %e"

/-- The `while` loop of `ipc_send`; `fuel` bounds the number of attempts. -/
def ipc_send_loop (E_IPC_NOT_RECV : Int) (to_env : Int) (val : Nat) (srcva : Nat) (perm : Int) :
    Nat → World → Outcome Unit × World
  | 0, w => (Outcome.outOfFuel, w)
  | fuel + 1, w =>
    let (r, w) := sys_ipc_try_send to_env val srcva perm w
    if r ≠ 0 then
      if r = -E_IPC_NOT_RECV then
        ipc_send_loop E_IPC_NOT_RECV to_env val srcva perm fuel (sys_yield w)
      else
        (Outcome.halted, panic ipc_send_fmt [r] w)
    else
      (Outcome.returned (), w)

/-- The routine `ipc_send(to_env, val, pg, perm)`. -/
def ipc_send (UTOP : Nat) (E_IPC_NOT_RECV : Int) (to_env : Int) (val : Nat) (pg : Nat)
    (perm : Int) (fuel : Nat) (w : World) : Outcome Unit × World :=
  let srcva := UTOP
  let srcva := if pg ≠ NULL then pg else srcva
  ipc_send_loop E_IPC_NOT_RECV to_env val srcva perm fuel w

/-- The `for` loop of `ipc_find_env` from index `i`, with `n` indices left. -/
def ipc_find_env_loop (envs : Nat → Env) (type : Int) : Nat → Nat → Int
  | 0, _ => 0
  | n + 1, i =>
    if (envs i).env_type = type then (envs i).env_id
    else ipc_find_env_loop envs type n (i + 1)

/-- The routine `ipc_find_env(type)` over the `NENV` entries of `envs`. -/
def ipc_find_env (NENV : Nat) (k : Kernel) (type : Int) : Int :=
  ipc_find_env_loop k.envs type NENV 0

/-! ## Vocabulary of the statements -/

/-- The events of `n` failed attempts, each followed by its yield. -/
def retryEvents (to_env : Int) (val : Nat) (srcva : Nat) (perm : Int) : Nat → List Event
  | 0 => []
  | n + 1 =>
    Event.sys_ipc_try_send to_env val srcva perm :: Event.sys_yield ::
      retryEvents to_env val srcva perm n

/-- Whether an event is a try-send request. -/
def Event.isTrySend : Event → Bool
  | Event.sys_ipc_try_send _ _ _ _ => true
  | _ => false

/-- Whether an event is a receive request. -/
def Event.isRecv : Event → Bool
  | Event.sys_ipc_recv _ => true
  | _ => false

/-- Whether an event is a yield. -/
def Event.isYield : Event → Bool
  | Event.sys_yield => true
  | _ => false

/-- Whether an event is a halt report. -/
def Event.isPanic : Event → Bool
  | Event.panic _ _ => true
  | _ => false

/-- The halt report in a list of events, if there is one. -/
def panicReport : List Event → Option (String × List Int)
  | [] => none
  | Event.panic fmt args :: _ => some (fmt, args)
  | _ :: es => panicReport es

/-- A world with the given memory and try-send answers and no event yet. -/
def World.start (mem : Nat → Int) (answers : Nat → Int) : World :=
  { mem := mem, trace := [], sendAnswers := answers }

/-- The directory whose first entries are those of a list; the entries past
the end of the list are all-zero. -/
def dirOfList (l : List Env) (i : Nat) : Env :=
  l.getD i ⟨0, 0, 0, 0, 0⟩

/-- A sample `ENVX` for the examples: the low bits of a non-negative
identifier, as an index into a directory of `n` entries. -/
def envxMod (n : Nat) (id : Int) : Nat :=
  id.toNat % n

/-- A sample kernel for the examples: a two-entry directory whose entry 1 is
the caller (identifier `0x1001`), with the given answer to the receive request
and the given payload in the caller's entry. -/
def sampleKernel (r : Int) (payload : Nat) : Kernel :=
  { recvAnswer := fun _ => r
    envid := 0x1001
    envs := dirOfList [⟨0x1000, 0, 5, 0x1001, 3⟩, ⟨0x1001, 0, payload, 0x1000, 7⟩] }

/-- The destination addresses of the receive requests in a list of events. -/
def recvAddrs : List Event → List Nat
  | [] => []
  | Event.sys_ipc_recv a :: es => a :: recvAddrs es
  | _ :: es => recvAddrs es

/-! ## Lemmas on the send loop -/

theorem retryEvents_countP_trySend (to_env : Int) (val srcva : Nat) (perm : Int) (n : Nat) :
    (retryEvents to_env val srcva perm n).countP Event.isTrySend = n := by
  induction n with
  | zero => rfl
  | succ n ih => simp [retryEvents, Event.isTrySend, Event.isYield, ih]

theorem retryEvents_countP_yield (to_env : Int) (val srcva : Nat) (perm : Int) (n : Nat) :
    (retryEvents to_env val srcva perm n).countP Event.isYield = n := by
  induction n with
  | zero => rfl
  | succ n ih => simp [retryEvents, Event.isTrySend, Event.isYield, ih]

theorem retryEvents_countP_panic (to_env : Int) (val srcva : Nat) (perm : Int) (n : Nat) :
    (retryEvents to_env val srcva perm n).countP Event.isPanic = 0 := by
  induction n with
  | zero => rfl
  | succ n ih => simp [retryEvents, Event.isPanic, ih]

theorem retryEvents_trySend_args (to_env : Int) (val srcva : Nat) (perm : Int) (n : Nat) :
    ∀ e ∈ retryEvents to_env val srcva perm n, e.isTrySend = true →
      e = Event.sys_ipc_try_send to_env val srcva perm := by
  induction n with
  | zero => intro e he; simp [retryEvents] at he
  | succ n ih =>
    intro e he ht
    simp only [retryEvents, List.mem_cons] at he
    rcases he with rfl | rfl | he
    · rfl
    · simp [Event.isTrySend] at ht
    · exact ih e he ht

theorem panicReport_retryEvents_append (to_env : Int) (val srcva : Nat) (perm : Int) (n : Nat)
    (l : List Event) :
    panicReport (retryEvents to_env val srcva perm n ++ l) = panicReport l := by
  induction n with
  | zero => rfl
  | succ n ih => simpa [retryEvents, panicReport] using ih

/-- After `n` answers "receiver not ready" the loop has performed `n`
attempts, each followed by a yield, and goes on with the fuel that is left. -/
theorem ipc_send_loop_retry (E : Int) (to_env : Int) (val srcva : Nat) (perm : Int) (hE : E ≠ 0)
    (n : Nat) : ∀ (fuel : Nat) (w : World), (∀ k, k < n → w.sendAnswers k = -E) →
      ipc_send_loop E to_env val srcva perm (n + fuel) w =
        ipc_send_loop E to_env val srcva perm fuel
          { mem := w.mem
            trace := w.trace ++ retryEvents to_env val srcva perm n
            sendAnswers := fun i => w.sendAnswers (i + n) } := by
  induction n with
  | zero => intro fuel w _; simp [retryEvents]
  | succ n ih =>
    intro fuel w h
    have h0 : w.sendAnswers 0 = -E := h 0 (Nat.succ_pos n)
    have hne : ¬ (-E = 0) := by simpa using hE
    have hstep : ipc_send_loop E to_env val srcva perm (n + 1 + fuel) w =
        ipc_send_loop E to_env val srcva perm (n + fuel)
          (sys_yield (sys_ipc_try_send to_env val srcva perm w).2) := by
      rw [show n + 1 + fuel = (n + fuel) + 1 by omega]
      simp [ipc_send_loop, sys_ipc_try_send, h0, hne]
    rw [hstep, ih fuel _ (fun k hk => by
      simpa [sys_yield, sys_ipc_try_send] using h (k + 1) (Nat.succ_lt_succ hk))]
    simp [sys_yield, sys_ipc_try_send, retryEvents, Nat.add_assoc, Nat.add_comm 1 n]

/-- With all of the first `fuel` answers "receiver not ready" the loop is
still retrying when the fuel is spent. -/
theorem ipc_send_loop_spinning (E : Int) (to_env : Int) (val srcva : Nat) (perm : Int)
    (hE : E ≠ 0) (fuel : Nat) (w : World) (h : ∀ k, k < fuel → w.sendAnswers k = -E) :
    (ipc_send_loop E to_env val srcva perm fuel w).1 = Outcome.outOfFuel := by
  have := ipc_send_loop_retry E to_env val srcva perm hE fuel 0 w h
  rw [Nat.add_zero] at this
  rw [this]
  rfl

/-- A halt of the loop comes from one attempt whose answer is neither success
nor "receiver not ready", after retries only. -/
theorem ipc_send_loop_halted (E : Int) (to_env : Int) (val srcva : Nat) (perm : Int) :
    ∀ (fuel : Nat) (w : World),
      (ipc_send_loop E to_env val srcva perm fuel w).1 = Outcome.halted →
      ∃ n, n < fuel ∧ (∀ k, k < n → w.sendAnswers k = -E) ∧
        w.sendAnswers n ≠ 0 ∧ w.sendAnswers n ≠ -E ∧
        (ipc_send_loop E to_env val srcva perm fuel w).2.trace =
          w.trace ++ (retryEvents to_env val srcva perm n ++
            [Event.sys_ipc_try_send to_env val srcva perm,
             Event.panic ipc_send_fmt [w.sendAnswers n]]) := by
  intro fuel
  induction fuel with
  | zero => intro w h; simp [ipc_send_loop] at h
  | succ fuel ih =>
    intro w h
    by_cases h0 : w.sendAnswers 0 = 0
    · simp [ipc_send_loop, sys_ipc_try_send, h0] at h
    · by_cases hE : w.sendAnswers 0 = -E
      · have hE0 : ¬ E = 0 := by
          intro hz
          exact h0 (by rw [hE, hz]; rfl)
        have hstep : ipc_send_loop E to_env val srcva perm (fuel + 1) w =
            ipc_send_loop E to_env val srcva perm fuel
              (sys_yield (sys_ipc_try_send to_env val srcva perm w).2) := by
          simp [ipc_send_loop, sys_ipc_try_send, hE, hE0]
        rw [hstep] at h ⊢
        obtain ⟨n, hn, hk, hz, hne, htr⟩ := ih _ h
        refine ⟨n + 1, Nat.succ_lt_succ hn, ?_, ?_, ?_, ?_⟩
        · intro k hk1
          cases k with
          | zero => exact hE
          | succ k => simpa [sys_yield, sys_ipc_try_send] using hk k (Nat.lt_of_succ_lt_succ hk1)
        · simpa [sys_yield, sys_ipc_try_send] using hz
        · simpa [sys_yield, sys_ipc_try_send] using hne
        · rw [htr]
          simp [sys_yield, sys_ipc_try_send, retryEvents]
      · refine ⟨0, Nat.succ_pos fuel, ?_, h0, hE, ?_⟩
        · intro k hk; exact absurd hk (Nat.not_lt_zero k)
        · simp [ipc_send_loop, sys_ipc_try_send, h0, hE, panic, retryEvents]

/-! ## Main statements: ipc_send -/

/-- C1 (contention retry): when the kernel answers "receiver not ready"
(`-E_IPC_NOT_RECV`) to the first `n` attempts and `0` to attempt `n + 1`, then
with any fuel above `n` the routine `ipc_send` returns normally; the events it
performed are exactly `n` rounds of one try-send followed by one yield, and a
final try-send: `n + 1` attempts and `n` yields in all, every attempt with the
same target, value, address and permissions, no halt report, and exactly
`n + 1` kernel answers consumed.  With fuel `n` or less (within the first `n`
attempts, none of which answered `0`) it has not returned. -/
theorem ipc_send_contention_retry (UTOP : Nat) (E_IPC_NOT_RECV : Int) (to_env : Int)
    (val pg : Nat) (perm : Int) (n : Nat) (w : World)
    (hE : E_IPC_NOT_RECV ≠ 0)
    (hbusy : ∀ k, k < n → w.sendAnswers k = -E_IPC_NOT_RECV)
    (hok : w.sendAnswers n = 0) :
    (∀ fuel, n < fuel →
      ∃ evs,
        ipc_send UTOP E_IPC_NOT_RECV to_env val pg perm fuel w =
          (Outcome.returned (),
           { mem := w.mem, trace := w.trace ++ evs,
             sendAnswers := fun i => w.sendAnswers (i + (n + 1)) }) ∧
        evs = retryEvents to_env val (if pg ≠ NULL then pg else UTOP) perm n ++
          [Event.sys_ipc_try_send to_env val (if pg ≠ NULL then pg else UTOP) perm] ∧
        evs.countP Event.isTrySend = n + 1 ∧
        evs.countP Event.isYield = n ∧
        evs.countP Event.isPanic = 0 ∧
        (∀ e ∈ evs, e.isTrySend = true →
          e = Event.sys_ipc_try_send to_env val (if pg ≠ NULL then pg else UTOP) perm)) ∧
    (∀ fuel, fuel ≤ n →
      (ipc_send UTOP E_IPC_NOT_RECV to_env val pg perm fuel w).1 = Outcome.outOfFuel) := by
  constructor
  · intro fuel hfuel
    obtain ⟨m, rfl⟩ : ∃ m, fuel = n + (m + 1) := ⟨fuel - n - 1, by omega⟩
    refine ⟨_, ?_, rfl, ?_, ?_, ?_, ?_⟩
    · unfold ipc_send
      simp only []
      rw [ipc_send_loop_retry E_IPC_NOT_RECV to_env val _ perm hE n (m + 1) w hbusy]
      simp [ipc_send_loop, sys_ipc_try_send, hok, Nat.add_comm 1 n, Nat.add_assoc]
    · simp [List.countP_append, retryEvents_countP_trySend, Event.isTrySend]
    · simp [List.countP_append, retryEvents_countP_yield, Event.isYield]
    · simp [List.countP_append, retryEvents_countP_panic, Event.isPanic]
    · intro e he ht
      rcases List.mem_append.1 he with he | he
      · exact retryEvents_trySend_args _ _ _ _ _ e he ht
      · simpa using he
  · intro fuel hfuel
    exact ipc_send_loop_spinning E_IPC_NOT_RECV to_env val _ perm hE fuel w
      (fun k hk => hbusy k (Nat.lt_of_lt_of_le hk hfuel))

/-- Witness of C1: two "receiver not ready" answers (`-7`), then success. -/
theorem ipc_send_contention_retry_witness :
    (ipc_send 0xeec00000 7 0x1001 42 0 0 3
      (World.start (fun _ => 0) (fun i => if i < 2 then -7 else 0))).1 = Outcome.returned () ∧
    (ipc_send 0xeec00000 7 0x1001 42 0 0 3
      (World.start (fun _ => 0) (fun i => if i < 2 then -7 else 0))).2.trace =
      [Event.sys_ipc_try_send 0x1001 42 0xeec00000 0, Event.sys_yield,
       Event.sys_ipc_try_send 0x1001 42 0xeec00000 0, Event.sys_yield,
       Event.sys_ipc_try_send 0x1001 42 0xeec00000 0] := by
  obtain ⟨h, _⟩ := ipc_send_contention_retry 0xeec00000 7 0x1001 42 0 0 2
    (World.start (fun _ => 0) (fun i => if i < 2 then -7 else 0))
    (by decide) (by intro k hk; simp [World.start, hk]) (by simp [World.start])
  obtain ⟨evs, hrun, hevs, _⟩ := h 3 (by decide)
  rw [hrun, hevs]
  exact ⟨rfl, by simp [World.start, retryEvents, NULL]⟩

/-- C2 (fail-fast): when the kernel answers "receiver not ready" to the first
`n` attempts and attempt `n + 1` gets a code `r` other than `0` and
`-E_IPC_NOT_RECV` (of either sign), then with any fuel above `n` the routine
`ipc_send` halts: the events are the `n` retry rounds, the failed attempt and
the halt report, nothing after it, and exactly `n + 1` kernel answers are
consumed.  With no amount of fuel does it return normally. -/
theorem ipc_send_fail_fast (UTOP : Nat) (E_IPC_NOT_RECV : Int) (to_env : Int)
    (val pg : Nat) (perm : Int) (n : Nat) (w : World)
    (hE : E_IPC_NOT_RECV ≠ 0)
    (hbusy : ∀ k, k < n → w.sendAnswers k = -E_IPC_NOT_RECV)
    (hnz : w.sendAnswers n ≠ 0)
    (hfatal : w.sendAnswers n ≠ -E_IPC_NOT_RECV) :
    (∀ fuel, n < fuel →
      ipc_send UTOP E_IPC_NOT_RECV to_env val pg perm fuel w =
        (Outcome.halted,
         { mem := w.mem,
           trace := w.trace ++
             (retryEvents to_env val (if pg ≠ NULL then pg else UTOP) perm n ++
               [Event.sys_ipc_try_send to_env val (if pg ≠ NULL then pg else UTOP) perm,
                Event.panic ipc_send_fmt [w.sendAnswers n]]),
           sendAnswers := fun i => w.sendAnswers (i + (n + 1)) })) ∧
    (∀ fuel,
      (ipc_send UTOP E_IPC_NOT_RECV to_env val pg perm fuel w).1 ≠ Outcome.returned ()) := by
  have hrun : ∀ m,
      ipc_send UTOP E_IPC_NOT_RECV to_env val pg perm (n + (m + 1)) w =
        (Outcome.halted,
         { mem := w.mem,
           trace := w.trace ++
             (retryEvents to_env val (if pg ≠ NULL then pg else UTOP) perm n ++
               [Event.sys_ipc_try_send to_env val (if pg ≠ NULL then pg else UTOP) perm,
                Event.panic ipc_send_fmt [w.sendAnswers n]]),
           sendAnswers := fun i => w.sendAnswers (i + (n + 1)) }) := by
    intro m
    unfold ipc_send
    simp only []
    rw [ipc_send_loop_retry E_IPC_NOT_RECV to_env val _ perm hE n (m + 1) w hbusy]
    simp [ipc_send_loop, sys_ipc_try_send, panic, hnz, hfatal, Nat.add_comm 1 n, Nat.add_assoc]
  constructor
  · intro fuel hfuel
    obtain ⟨m, rfl⟩ : ∃ m, fuel = n + (m + 1) := ⟨fuel - n - 1, by omega⟩
    exact hrun m
  · intro fuel
    by_cases hfuel : n < fuel
    · obtain ⟨m, rfl⟩ : ∃ m, fuel = n + (m + 1) := ⟨fuel - n - 1, by omega⟩
      rw [hrun m]
      simp
    · have hsp := ipc_send_loop_spinning E_IPC_NOT_RECV to_env val
        (if pg ≠ NULL then pg else UTOP) perm hE fuel w
        (fun k hk => hbusy k (by omega))
      unfold ipc_send
      simp only []
      rw [hsp]
      simp

/-- Witness of C2: one "receiver not ready" answer (`-7`), then the code `-2`. -/
theorem ipc_send_fail_fast_witness :
    (ipc_send 0xeec00000 7 0x1001 42 0 0 5
      (World.start (fun _ => 0) (fun i => if i < 1 then -7 else -2))).1 = Outcome.halted ∧
    (ipc_send 0xeec00000 7 0x1001 42 0 0 5
      (World.start (fun _ => 0) (fun i => if i < 1 then -7 else -2))).2.trace =
      [Event.sys_ipc_try_send 0x1001 42 0xeec00000 0, Event.sys_yield,
       Event.sys_ipc_try_send 0x1001 42 0xeec00000 0,
       Event.panic ipc_send_fmt [-2]] := by
  obtain ⟨h, _⟩ := ipc_send_fail_fast 0xeec00000 7 0x1001 42 0 0 1
    (World.start (fun _ => 0) (fun i => if i < 1 then -7 else -2))
    (by decide) (by intro k hk; simp [World.start, Nat.lt_one_iff.1 hk]) (by simp [World.start])
    (by simp [World.start])
  rw [h 5 (by decide)]
  exact ⟨rfl, by simp [World.start, retryEvents, NULL]⟩

/-- C8, as stated, fails: no reading of the halt report recovers the target
and the attempted value.  Two calls that differ in target and value and get
the same kernel code halt with the same report. -/
theorem ipc_send_report_omits_target_and_value :
    ¬ ∃ decode : String × List Int → Int × Nat × Int,
      ∀ (to_env : Int) (val : Nat) (r : Int), r ≠ 0 → r ≠ -7 →
        ∀ rep,
          panicReport (ipc_send 0xeec00000 7 to_env val 0 0 1
            (World.start (fun _ => 0) (fun _ => r))).2.trace = some rep →
          decode rep = (to_env, val, r) := by
  rintro ⟨decode, h⟩
  have h1 := h 0x1001 42 (-2) (by decide) (by decide) (ipc_send_fmt, [-2])
    (by simp [ipc_send, ipc_send_loop, sys_ipc_try_send, panic, World.start, panicReport, NULL])
  have h2 := h 0x1002 43 (-2) (by decide) (by decide) (ipc_send_fmt, [-2])
    (by simp [ipc_send, ipc_send_loop, sys_ipc_try_send, panic, World.start, panicReport, NULL])
  rw [h1] at h2
  simp at h2

/-- C8, amended: whenever `ipc_send` halts, it does so at an attempt (number
`n + 1`, after `n` retries) whose kernel code is neither `0` nor
`-E_IPC_NOT_RECV`, and the report it halts with is the fixed format string
of `ipc_send` with that kernel code as its only argument; the report carries
neither the target nor the value. -/
theorem ipc_send_halt_report (UTOP : Nat) (E_IPC_NOT_RECV : Int) (to_env : Int)
    (val pg : Nat) (perm : Int) (fuel : Nat) (w : World)
    (hhalt : (ipc_send UTOP E_IPC_NOT_RECV to_env val pg perm fuel w).1 = Outcome.halted) :
    ∃ n evs, n < fuel ∧
      (∀ k, k < n → w.sendAnswers k = -E_IPC_NOT_RECV) ∧
      w.sendAnswers n ≠ 0 ∧ w.sendAnswers n ≠ -E_IPC_NOT_RECV ∧
      (ipc_send UTOP E_IPC_NOT_RECV to_env val pg perm fuel w).2.trace = w.trace ++ evs ∧
      evs.getLast? = some (Event.panic ipc_send_fmt [w.sendAnswers n]) ∧
      panicReport evs = some (ipc_send_fmt, [w.sendAnswers n]) := by
  obtain ⟨n, hn, hk, hz, hne, htr⟩ :=
    ipc_send_loop_halted E_IPC_NOT_RECV to_env val (if pg ≠ NULL then pg else UTOP) perm fuel w hhalt
  refine ⟨n, _, hn, hk, hz, hne, htr, ?_, ?_⟩
  · simp [List.getLast?_append]
  · rw [panicReport_retryEvents_append]
    simp [panicReport]

/-- Witness of C8 (amended): a call answered with the code `-2` at once. -/
theorem ipc_send_halt_report_witness :
    ∃ n evs, n < 1 ∧
      (∀ k, k < n → (World.start (fun _ => 0) (fun _ => -2)).sendAnswers k = -7) ∧
      (World.start (fun _ => 0) (fun _ => -2)).sendAnswers n ≠ 0 ∧
      (World.start (fun _ => 0) (fun _ => -2)).sendAnswers n ≠ -7 ∧
      (ipc_send 0xeec00000 7 0x1001 42 0 0 1 (World.start (fun _ => 0) (fun _ => -2))).2.trace =
        (World.start (fun _ => 0) (fun _ => -2)).trace ++ evs ∧
      evs.getLast? = some (Event.panic ipc_send_fmt
        [(World.start (fun _ => 0) (fun _ => -2)).sendAnswers n]) ∧
      panicReport evs = some (ipc_send_fmt,
        [(World.start (fun _ => 0) (fun _ => -2)).sendAnswers n]) :=
  ipc_send_halt_report 0xeec00000 7 0x1001 42 0 0 1 (World.start (fun _ => 0) (fun _ => -2))
    (by simp [ipc_send, ipc_send_loop, sys_ipc_try_send, panic, World.start, NULL])

/-! ## Main statements: ipc_recv -/

theorem int32_of_uint32_emod (v : Nat) :
    int32_of_uint32 v % 2 ^ 32 = ((v % 2 ^ 32 : Nat) : Int) := by
  unfold int32_of_uint32
  have hlt : v % 2 ^ 32 < 2 ^ 32 := Nat.mod_lt _ (by norm_num)
  split <;> omega

theorem int32_of_uint32_neg_iff (v : Nat) (hv : v < 2 ^ 32) :
    int32_of_uint32 v < 0 ↔ 2 ^ 31 ≤ v := by
  unfold int32_of_uint32
  rw [Nat.mod_eq_of_lt hv]
  split <;> omega

theorem int32_of_uint32_small (v : Nat) (hv : v < 2 ^ 31) :
    int32_of_uint32 v = (v : Int) := by
  unfold int32_of_uint32
  have h32 : v < 2 ^ 32 := by omega
  rw [Nat.mod_eq_of_lt h32, if_pos hv]

/-- The events of one call of `ipc_recv`, whatever the kernel answers. -/
theorem ipc_recv_trace (UTOP : Nat) (ENVX : Int → Nat) (k : Kernel)
    (from_env_store pg perm_store : Nat) (w : World) :
    (ipc_recv UTOP ENVX k from_env_store pg perm_store w).2.trace =
      w.trace ++
        ([Event.sys_ipc_recv (if pg ≠ NULL then pg else UTOP), Event.sys_getenvid] ++
          (if from_env_store ≠ NULL then
            [Event.store from_env_store
              (if k.recvAnswer (if pg ≠ NULL then pg else UTOP) < 0 then 0
               else (k.envs (ENVX k.envid)).env_ipc_from)] else []) ++
          (if perm_store ≠ NULL then
            [Event.store perm_store
              (if k.recvAnswer (if pg ≠ NULL then pg else UTOP) < 0 then 0
               else (k.envs (ENVX k.envid)).env_ipc_perm)] else [])) := by
  by_cases hr : k.recvAnswer (if pg ≠ NULL then pg else UTOP) < 0
  · by_cases hpg : pg = NULL <;> by_cases hf : from_env_store = NULL <;>
      by_cases hp : perm_store = NULL <;>
      simp [hpg] at hr <;>
      simp [ipc_recv, sys_ipc_recv, sys_getenvid, storeInt, hpg, hf, hp, hr]
  · by_cases hpg : pg = NULL <;> by_cases hf : from_env_store = NULL <;>
      by_cases hp : perm_store = NULL <;>
      simp [hpg] at hr <;>
      simp [ipc_recv, sys_ipc_recv, sys_getenvid, storeInt, hpg, hf, hp, Int.not_lt.2 hr]

/-- On an error answer the call returns that answer. -/
theorem ipc_recv_ret_error (UTOP : Nat) (ENVX : Int → Nat) (k : Kernel)
    (from_env_store pg perm_store : Nat) (w : World)
    (hr : k.recvAnswer (if pg ≠ NULL then pg else UTOP) < 0) :
    (ipc_recv UTOP ENVX k from_env_store pg perm_store w).1 =
      Outcome.returned (k.recvAnswer (if pg ≠ NULL then pg else UTOP)) := by
  by_cases hpg : pg = NULL <;> simp [hpg] at hr <;>
    simp [ipc_recv, sys_ipc_recv, sys_getenvid, hpg, hr]

/-- On any other answer the call returns the payload of the caller's entry. -/
theorem ipc_recv_ret_success (UTOP : Nat) (ENVX : Int → Nat) (k : Kernel)
    (from_env_store pg perm_store : Nat) (w : World)
    (hr : ¬ k.recvAnswer (if pg ≠ NULL then pg else UTOP) < 0) :
    (ipc_recv UTOP ENVX k from_env_store pg perm_store w).1 =
      Outcome.returned (int32_of_uint32 (k.envs (ENVX k.envid)).env_ipc_value) := by
  by_cases hpg : pg = NULL <;> simp [hpg] at hr <;>
    simp [ipc_recv, sys_ipc_recv, sys_getenvid, hpg, Int.not_lt.2 hr]

/-- C3 (error output hygiene): when the kernel receive request answers an
error code `r < 0`, the routine `ipc_recv` returns exactly `r`, and each of
the sender output and the permissions output that was requested (non-null)
holds `0` afterwards, whatever it held before and whatever the caller's
directory entry stores. -/
theorem ipc_recv_error_hygiene (UTOP : Nat) (ENVX : Int → Nat) (k : Kernel)
    (from_env_store pg perm_store : Nat) (w : World)
    (hr : k.recvAnswer (if pg ≠ NULL then pg else UTOP) < 0) :
    (ipc_recv UTOP ENVX k from_env_store pg perm_store w).1 =
        Outcome.returned (k.recvAnswer (if pg ≠ NULL then pg else UTOP)) ∧
      (from_env_store ≠ NULL →
        (ipc_recv UTOP ENVX k from_env_store pg perm_store w).2.mem from_env_store = 0) ∧
      (perm_store ≠ NULL →
        (ipc_recv UTOP ENVX k from_env_store pg perm_store w).2.mem perm_store = 0) := by
  by_cases hpg : pg = NULL <;> by_cases hf : from_env_store = NULL <;>
    by_cases hp : perm_store = NULL <;>
    simp [hpg] at hr <;>
    simp [ipc_recv, sys_ipc_recv, sys_getenvid, storeInt, hpg, hf, hp, hr]

/-- Witness of C3: the request fails with `-3`; both outputs held stale values. -/
theorem ipc_recv_error_hygiene_witness :
    (ipc_recv 0xeec00000 (envxMod 2)
        ⟨fun _ => -3, 0x1001, dirOfList [⟨0x1000, 0, 5, 0x1001, 7⟩, ⟨0x1001, 0, 99, 0x1000, 7⟩]⟩
        0x800000 0 0x800004 (World.start (fun _ => 77) (fun _ => 0))).1 =
        Outcome.returned (-3) ∧
      (ipc_recv 0xeec00000 (envxMod 2)
        ⟨fun _ => -3, 0x1001, dirOfList [⟨0x1000, 0, 5, 0x1001, 7⟩, ⟨0x1001, 0, 99, 0x1000, 7⟩]⟩
        0x800000 0 0x800004 (World.start (fun _ => 77) (fun _ => 0))).2.mem 0x800000 = 0 ∧
      (ipc_recv 0xeec00000 (envxMod 2)
        ⟨fun _ => -3, 0x1001, dirOfList [⟨0x1000, 0, 5, 0x1001, 7⟩, ⟨0x1001, 0, 99, 0x1000, 7⟩]⟩
        0x800000 0 0x800004 (World.start (fun _ => 77) (fun _ => 0))).2.mem 0x800004 = 0 := by
  obtain ⟨h1, h2, h3⟩ := ipc_recv_error_hygiene 0xeec00000 (envxMod 2)
    ⟨fun _ => -3, 0x1001, dirOfList [⟨0x1000, 0, 5, 0x1001, 7⟩, ⟨0x1001, 0, 99, 0x1000, 7⟩]⟩
    0x800000 0 0x800004 (World.start (fun _ => 77) (fun _ => 0)) (by decide)
  exact ⟨h1, h2 (by decide), h3 (by decide)⟩

/-- C4 (success read-back): when the kernel receive request does not answer
an error (`r < 0` is false), `ipc_recv` returns the `env_ipc_value` of the
entry `envs[ENVX(sys_getenvid())]`, as the `int32_t` with the same 32-bit
pattern (equal to the payload itself when that is below `2^31`).  The events
are the receive request, `sys_getenvid`, then a store of that entry's
`env_ipc_from` through the sender output if it is non-null, then a store of
that entry's `env_ipc_perm` through the permissions output if it is
non-null, and no other store.  Afterwards the permissions output holds
`env_ipc_perm`, the sender output (when it is a cell of its own) holds
`env_ipc_from`, and every other cell is unchanged. -/
theorem ipc_recv_success_readback (UTOP : Nat) (ENVX : Int → Nat) (k : Kernel)
    (from_env_store pg perm_store : Nat) (w : World)
    (hr : ¬ k.recvAnswer (if pg ≠ NULL then pg else UTOP) < 0) :
    (ipc_recv UTOP ENVX k from_env_store pg perm_store w).1 =
        Outcome.returned (int32_of_uint32 (k.envs (ENVX k.envid)).env_ipc_value) ∧
      int32_of_uint32 (k.envs (ENVX k.envid)).env_ipc_value % 2 ^ 32 =
        (((k.envs (ENVX k.envid)).env_ipc_value % 2 ^ 32 : Nat) : Int) ∧
      ((k.envs (ENVX k.envid)).env_ipc_value < 2 ^ 31 →
        int32_of_uint32 (k.envs (ENVX k.envid)).env_ipc_value =
          ((k.envs (ENVX k.envid)).env_ipc_value : Int)) ∧
      (ipc_recv UTOP ENVX k from_env_store pg perm_store w).2.trace =
        w.trace ++
          ([Event.sys_ipc_recv (if pg ≠ NULL then pg else UTOP), Event.sys_getenvid] ++
            (if from_env_store ≠ NULL then
              [Event.store from_env_store (k.envs (ENVX k.envid)).env_ipc_from] else []) ++
            (if perm_store ≠ NULL then
              [Event.store perm_store (k.envs (ENVX k.envid)).env_ipc_perm] else [])) ∧
      (from_env_store ≠ NULL → from_env_store ≠ perm_store →
        (ipc_recv UTOP ENVX k from_env_store pg perm_store w).2.mem from_env_store =
          (k.envs (ENVX k.envid)).env_ipc_from) ∧
      (perm_store ≠ NULL →
        (ipc_recv UTOP ENVX k from_env_store pg perm_store w).2.mem perm_store =
          (k.envs (ENVX k.envid)).env_ipc_perm) ∧
      (∀ a, (a ≠ from_env_store ∨ from_env_store = NULL) →
        (a ≠ perm_store ∨ perm_store = NULL) →
        (ipc_recv UTOP ENVX k from_env_store pg perm_store w).2.mem a = w.mem a) := by
  refine ⟨?_, int32_of_uint32_emod _, int32_of_uint32_small _, ?_, ?_, ?_, ?_⟩
  · by_cases hpg : pg = NULL <;> simp [hpg] at hr <;>
      simp [ipc_recv, sys_ipc_recv, sys_getenvid, hpg, Int.not_lt.2 hr]
  · by_cases hpg : pg = NULL <;> by_cases hf : from_env_store = NULL <;>
      by_cases hp : perm_store = NULL <;>
      simp [hpg] at hr <;>
      simp [ipc_recv, sys_ipc_recv, sys_getenvid, storeInt, hpg, hf, hp, Int.not_lt.2 hr]
  · intro hf hne
    by_cases hpg : pg = NULL <;> by_cases hp : perm_store = NULL <;>
      simp [hpg] at hr <;>
      simp [ipc_recv, sys_ipc_recv, sys_getenvid, storeInt, hpg, hf, hp, hne, Int.not_lt.2 hr]
  · intro hp
    by_cases hpg : pg = NULL <;> by_cases hf : from_env_store = NULL <;>
      simp [hpg] at hr <;>
      simp [ipc_recv, sys_ipc_recv, sys_getenvid, storeInt, hpg, hf, hp, Int.not_lt.2 hr]
  · intro a ha1 ha2
    by_cases hpg : pg = NULL <;> by_cases hf : from_env_store = NULL <;>
      by_cases hp : perm_store = NULL <;>
      simp [hf] at ha1 <;> simp [hp] at ha2 <;> simp [hpg] at hr <;>
      simp [ipc_recv, sys_ipc_recv, sys_getenvid, storeInt, hpg, hf, hp, ha1, ha2,
        Int.not_lt.2 hr]

/-- Witness of C4: the caller is entry 1 of a two-entry directory; the request
succeeds; both outputs are requested. -/
theorem ipc_recv_success_readback_witness :
    (ipc_recv 0xeec00000 (envxMod 2)
        ⟨fun _ => 0, 0x1001, dirOfList [⟨0x1000, 0, 5, 0x1001, 3⟩, ⟨0x1001, 0, 99, 0x1000, 7⟩]⟩
        0x800000 0 0x800004 (World.start (fun _ => 77) (fun _ => 0))).1 =
        Outcome.returned 99 ∧
      (ipc_recv 0xeec00000 (envxMod 2)
        ⟨fun _ => 0, 0x1001, dirOfList [⟨0x1000, 0, 5, 0x1001, 3⟩, ⟨0x1001, 0, 99, 0x1000, 7⟩]⟩
        0x800000 0 0x800004 (World.start (fun _ => 77) (fun _ => 0))).2.mem 0x800000 = 0x1000 ∧
      (ipc_recv 0xeec00000 (envxMod 2)
        ⟨fun _ => 0, 0x1001, dirOfList [⟨0x1000, 0, 5, 0x1001, 3⟩, ⟨0x1001, 0, 99, 0x1000, 7⟩]⟩
        0x800000 0 0x800004 (World.start (fun _ => 77) (fun _ => 0))).2.mem 0x800004 = 7 := by
  obtain ⟨h1, _, _, _, h2, h3, _⟩ := ipc_recv_success_readback 0xeec00000 (envxMod 2)
    ⟨fun _ => 0, 0x1001, dirOfList [⟨0x1000, 0, 5, 0x1001, 3⟩, ⟨0x1001, 0, 99, 0x1000, 7⟩]⟩
    0x800000 0 0x800004 (World.start (fun _ => 77) (fun _ => 0)) (by decide)
  refine ⟨?_, ?_, ?_⟩
  · rw [h1]; decide
  · rw [h2 (by decide) (by decide)]; decide
  · rw [h3 (by decide)]; decide

/-- C6 (no retry, no halt): for every kernel answer, `ipc_recv` returns a value
to its caller, and the events it performed contain exactly one receive
request, no yield, no try-send and no halt report. -/
theorem ipc_recv_single_request (UTOP : Nat) (ENVX : Int → Nat) (k : Kernel)
    (from_env_store pg perm_store : Nat) (w : World) :
    ∃ v evs,
      (ipc_recv UTOP ENVX k from_env_store pg perm_store w).1 = Outcome.returned v ∧
      (ipc_recv UTOP ENVX k from_env_store pg perm_store w).2.trace = w.trace ++ evs ∧
      evs.countP Event.isRecv = 1 ∧
      evs.countP Event.isYield = 0 ∧
      evs.countP Event.isTrySend = 0 ∧
      evs.countP Event.isPanic = 0 := by
  by_cases hr : k.recvAnswer (if pg ≠ NULL then pg else UTOP) < 0
  · refine ⟨_, _, ipc_recv_ret_error UTOP ENVX k from_env_store pg perm_store w hr,
      ipc_recv_trace UTOP ENVX k from_env_store pg perm_store w, ?_, ?_, ?_, ?_⟩
    all_goals
      by_cases hf : from_env_store = NULL <;> by_cases hp : perm_store = NULL <;>
        simp [hf, hp, Event.isRecv, Event.isYield, Event.isTrySend, Event.isPanic]
  · refine ⟨_, _, ipc_recv_ret_success UTOP ENVX k from_env_store pg perm_store w hr,
      ipc_recv_trace UTOP ENVX k from_env_store pg perm_store w, ?_, ?_, ?_, ?_⟩
    all_goals
      by_cases hf : from_env_store = NULL <;> by_cases hp : perm_store = NULL <;>
        simp [hf, hp, Event.isRecv, Event.isYield, Event.isTrySend, Event.isPanic]

/-- C7, as stated, fails: the receive request succeeds (answer `0`), the
caller's entry holds the 32-bit payload `0x80000000`, and `ipc_recv` returns
the negative value `-2147483648`. -/
theorem ipc_recv_negative_on_success :
    (sampleKernel 0 0x80000000).recvAnswer 0xeec00000 = 0 ∧
      ((sampleKernel 0 0x80000000).envs
        (envxMod 2 (sampleKernel 0 0x80000000).envid)).env_ipc_value = 0x80000000 ∧
      (0x80000000 : Nat) < 2 ^ 32 ∧
      (ipc_recv 0xeec00000 (envxMod 2) (sampleKernel 0 0x80000000)
        0 0 0 (World.start (fun _ => 0) (fun _ => 0))).1 = Outcome.returned (-2147483648) ∧
      (-2147483648 : Int) < 0 := by
  refine ⟨by decide, by decide, by decide, by decide, by decide⟩

/-- C7, amended: `ipc_recv` returns a value; when the kernel receive request
failed (`r < 0`) that value is `r`, hence negative; when it did not fail, the
value is the 32-bit payload of the caller's entry converted to `int32_t`
modulo `2^32`, which is negative exactly when the payload is `2^31` or more
and equals the payload when it is below `2^31`.  So the returned value is
negative if and only if the request failed or the payload is at least
`2^31`. -/
theorem ipc_recv_sign (UTOP : Nat) (ENVX : Int → Nat) (k : Kernel)
    (from_env_store pg perm_store : Nat) (w : World)
    (hv : (k.envs (ENVX k.envid)).env_ipc_value < 2 ^ 32) :
    ∃ v,
      (ipc_recv UTOP ENVX k from_env_store pg perm_store w).1 = Outcome.returned v ∧
      (k.recvAnswer (if pg ≠ NULL then pg else UTOP) < 0 →
        v = k.recvAnswer (if pg ≠ NULL then pg else UTOP) ∧ v < 0) ∧
      (¬ k.recvAnswer (if pg ≠ NULL then pg else UTOP) < 0 →
        v = int32_of_uint32 (k.envs (ENVX k.envid)).env_ipc_value ∧
        (v < 0 ↔ 2 ^ 31 ≤ (k.envs (ENVX k.envid)).env_ipc_value) ∧
        ((k.envs (ENVX k.envid)).env_ipc_value < 2 ^ 31 →
          v = ((k.envs (ENVX k.envid)).env_ipc_value : Int))) ∧
      (v < 0 ↔ (k.recvAnswer (if pg ≠ NULL then pg else UTOP) < 0 ∨
        2 ^ 31 ≤ (k.envs (ENVX k.envid)).env_ipc_value)) := by
  by_cases hr : k.recvAnswer (if pg ≠ NULL then pg else UTOP) < 0
  · refine ⟨_, ipc_recv_ret_error UTOP ENVX k from_env_store pg perm_store w hr,
      fun _ => ⟨rfl, hr⟩, fun h => absurd hr h, ?_⟩
    exact ⟨fun _ => Or.inl hr, fun _ => hr⟩
  · refine ⟨_, ipc_recv_ret_success UTOP ENVX k from_env_store pg perm_store w hr,
      fun h => absurd h hr,
      fun _ => ⟨rfl, int32_of_uint32_neg_iff _ hv, int32_of_uint32_small _⟩, ?_⟩
    rw [int32_of_uint32_neg_iff _ hv]
    exact ⟨fun h => Or.inr h, fun h => h.resolve_left hr⟩

/-- Witness of C7 (amended): a successful receive of the payload `99`. -/
theorem ipc_recv_sign_witness :
    ∃ v,
      (ipc_recv 0xeec00000 (envxMod 2)
        ⟨fun _ => 0, 0x1001, dirOfList [⟨0x1000, 0, 5, 0x1001, 3⟩, ⟨0x1001, 0, 99, 0x1000, 7⟩]⟩
        0 0 0 (World.start (fun _ => 0) (fun _ => 0))).1 = Outcome.returned v ∧
      ¬ v < 0 := by
  obtain ⟨v, h1, _, h2, _⟩ := ipc_recv_sign 0xeec00000 (envxMod 2)
    ⟨fun _ => 0, 0x1001, dirOfList [⟨0x1000, 0, 5, 0x1001, 3⟩, ⟨0x1001, 0, 99, 0x1000, 7⟩]⟩
    0 0 0 (World.start (fun _ => 0) (fun _ => 0)) (by decide)
  refine ⟨v, h1, ?_⟩
  rw [(h2 (by decide)).2.1]
  decide

/-! ## Main statements: the page address -/

/-- Every try-send request of the loop carries the arguments the loop was
entered with, and with fuel the loop starts with such a request. -/
theorem ipc_send_loop_requests (E : Int) (to_env : Int) (val srcva : Nat) (perm : Int) :
    ∀ (fuel : Nat) (w : World), ∃ evs,
      (ipc_send_loop E to_env val srcva perm fuel w).2.trace = w.trace ++ evs ∧
      (∀ e ∈ evs, e.isTrySend = true → e = Event.sys_ipc_try_send to_env val srcva perm) ∧
      (0 < fuel → evs.head? = some (Event.sys_ipc_try_send to_env val srcva perm)) := by
  intro fuel
  induction fuel with
  | zero => intro w; exact ⟨[], by simp [ipc_send_loop], by simp, by simp⟩
  | succ fuel ih =>
    intro w
    by_cases h0 : w.sendAnswers 0 = 0
    · refine ⟨[Event.sys_ipc_try_send to_env val srcva perm], ?_, ?_, ?_⟩
      · simp [ipc_send_loop, sys_ipc_try_send, h0]
      · intro e he _; simpa using he
      · simp
    · by_cases hE : w.sendAnswers 0 = -E
      · obtain ⟨evs, htr, hall, _⟩ :=
          ih (sys_yield (sys_ipc_try_send to_env val srcva perm w).2)
        refine ⟨Event.sys_ipc_try_send to_env val srcva perm :: Event.sys_yield :: evs,
          ?_, ?_, ?_⟩
        · have hE0 : ¬ E = 0 := by
            intro hz
            exact h0 (by rw [hE, hz]; rfl)
          have hstep : ipc_send_loop E to_env val srcva perm (fuel + 1) w =
              ipc_send_loop E to_env val srcva perm fuel
                (sys_yield (sys_ipc_try_send to_env val srcva perm w).2) := by
            simp [ipc_send_loop, sys_ipc_try_send, hE, hE0]
          rw [hstep, htr]
          simp [sys_yield, sys_ipc_try_send]
        · intro e he ht
          simp only [List.mem_cons] at he
          rcases he with rfl | rfl | he
          · rfl
          · simp [Event.isTrySend] at ht
          · exact hall e he ht
        · simp
      · refine ⟨[Event.sys_ipc_try_send to_env val srcva perm,
          Event.panic ipc_send_fmt [w.sendAnswers 0]], ?_, ?_, ?_⟩
        · simp [ipc_send_loop, sys_ipc_try_send, panic, h0, hE]
        · intro e he ht
          simp only [List.mem_cons, List.mem_singleton, List.not_mem_nil, or_false] at he
          rcases he with rfl | rfl
          · rfl
          · simp [Event.isTrySend] at ht
        · simp

/-- C10, as stated, fails: a caller that passes the non-null page address
`UTOP` itself has `UTOP` handed to the kernel, by `ipc_recv` and by `ipc_send`
alike, although its page address is not null. -/
theorem caller_utop_page_is_forwarded :
    (0xeec00000 : Nat) ≠ NULL ∧
      recvAddrs (ipc_recv 0xeec00000 (envxMod 2) (sampleKernel 0 99)
        0 0xeec00000 0 (World.start (fun _ => 0) (fun _ => 0))).2.trace = [0xeec00000] ∧
      (ipc_send 0xeec00000 7 0x1001 42 0xeec00000 7 1
        (World.start (fun _ => 0) (fun _ => 0))).2.trace =
        [Event.sys_ipc_try_send 0x1001 42 0xeec00000 7] := by
  refine ⟨by decide, by decide, by decide⟩

/-- C10, amended: with `UTOP` a nonzero address, the address handed to the
kernel by `ipc_recv` (its one receive request) and by `ipc_send` (every
try-send request, the first of which is made as soon as there is fuel) is the
caller's page address when that is non-null and `UTOP` when it is null; it is
never null, and it is `UTOP` exactly when the caller's page address is null
or is `UTOP` itself.  Every try-send request carries the caller's target,
value and permissions unchanged, with or without a page. -/
theorem page_address_sentinel (UTOP : Nat) (ENVX : Int → Nat) (E_IPC_NOT_RECV : Int)
    (k : Kernel) (from_env_store pg perm_store : Nat) (to_env : Int) (val : Nat) (perm : Int)
    (w : World) (hUTOP : UTOP ≠ NULL) :
    (∃ evs,
        (ipc_recv UTOP ENVX k from_env_store pg perm_store w).2.trace = w.trace ++ evs ∧
        recvAddrs evs = [if pg ≠ NULL then pg else UTOP]) ∧
      (∀ fuel, ∃ evs,
        (ipc_send UTOP E_IPC_NOT_RECV to_env val pg perm fuel w).2.trace = w.trace ++ evs ∧
        (∀ e ∈ evs, e.isTrySend = true →
          e = Event.sys_ipc_try_send to_env val (if pg ≠ NULL then pg else UTOP) perm) ∧
        (0 < fuel → evs.head? =
          some (Event.sys_ipc_try_send to_env val (if pg ≠ NULL then pg else UTOP) perm))) ∧
      (if pg ≠ NULL then pg else UTOP) ≠ NULL ∧
      (pg ≠ NULL → (if pg ≠ NULL then pg else UTOP) = pg) ∧
      (pg = NULL → (if pg ≠ NULL then pg else UTOP) = UTOP) ∧
      ((if pg ≠ NULL then pg else UTOP) = UTOP ↔ (pg = NULL ∨ pg = UTOP)) := by
  refine ⟨?_, ?_, ?_, ?_, ?_, ?_⟩
  · refine ⟨_, ipc_recv_trace UTOP ENVX k from_env_store pg perm_store w, ?_⟩
    by_cases hf : from_env_store = NULL <;> by_cases hp : perm_store = NULL <;>
      simp [hf, hp, recvAddrs]
  · intro fuel
    exact ipc_send_loop_requests E_IPC_NOT_RECV to_env val (if pg ≠ NULL then pg else UTOP)
      perm fuel w
  · by_cases hpg : pg = NULL <;> simp [hpg, hUTOP]
  · intro hpg; simp [hpg]
  · intro hpg; simp [hpg]
  · by_cases hpg : pg = NULL <;> simp [hpg]

/-- Witness of C10 (amended): no page is given; the kernel sees `UTOP`. -/
theorem page_address_sentinel_witness :
    (0xeec00000 : Nat) ≠ NULL ∧
      ∃ evs,
        (ipc_recv 0xeec00000 (envxMod 2) (sampleKernel 0 99) 0 0 0
          (World.start (fun _ => 0) (fun _ => 0))).2.trace =
          (World.start (fun _ => 0) (fun _ => 0)).trace ++ evs ∧
        recvAddrs evs = [if (0 : Nat) ≠ NULL then 0 else 0xeec00000] :=
  ⟨by decide,
   (page_address_sentinel 0xeec00000 (envxMod 2) 7 (sampleKernel 0 99) 0 0 0 0x1001 42 7
    (World.start (fun _ => 0) (fun _ => 0)) (by decide)).1⟩

/-! ## Main statements: ipc_find_env -/

/-- The scan of `n` entries from index `i` returns `0` when none of them has
the requested type. -/
theorem ipc_find_env_loop_none (envs : Nat → Env) (t : Int) :
    ∀ (n i : Nat), (∀ j, i ≤ j → j < i + n → (envs j).env_type ≠ t) →
      ipc_find_env_loop envs t n i = 0 := by
  intro n
  induction n with
  | zero => intro i _; rfl
  | succ n ih =>
    intro i h
    have hi : (envs i).env_type ≠ t := h i (Nat.le_refl i) (by omega)
    simp only [ipc_find_env_loop, if_neg hi]
    exact ih (i + 1) (fun j h1 h2 => h j (by omega) (by omega))

/-- The scan of `n` entries from index `i` returns the identifier of the
entry `m` that is the first of them with the requested type. -/
theorem ipc_find_env_loop_first (envs : Nat → Env) (t : Int) :
    ∀ (n i m : Nat), i ≤ m → m < i + n → (envs m).env_type = t →
      (∀ j, i ≤ j → j < m → (envs j).env_type ≠ t) →
      ipc_find_env_loop envs t n i = (envs m).env_id := by
  intro n
  induction n with
  | zero => intro i m h1 h2; omega
  | succ n ih =>
    intro i m h1 h2 hm hfirst
    by_cases him : i = m
    · subst him
      simp only [ipc_find_env_loop, if_pos hm]
    · have hi : (envs i).env_type ≠ t := hfirst i (Nat.le_refl i) (by omega)
      simp only [ipc_find_env_loop, if_neg hi]
      exact ih (i + 1) m (by omega) (by omega) hm (fun j h3 h4 => hfirst j (by omega) h4)

/-- C5 (first match): over a directory of `NENV` entries, when entry `i` has
type `t` and no entry of lower index has, `ipc_find_env(t)` returns the
identifier of entry `i`; when some entry has type `t`, there is such a lowest
index and its identifier is returned; when no entry has type `t`, the result
is `0`. -/
theorem ipc_find_env_first_match (NENV : Nat) (k : Kernel) (t : Int) :
    (∀ i, i < NENV → (k.envs i).env_type = t →
      (∀ j, j < i → (k.envs j).env_type ≠ t) →
      ipc_find_env NENV k t = (k.envs i).env_id) ∧
    ((∃ i, i < NENV ∧ (k.envs i).env_type = t) →
      ∃ m, m < NENV ∧ (k.envs m).env_type = t ∧
        (∀ j, j < m → (k.envs j).env_type ≠ t) ∧
        ipc_find_env NENV k t = (k.envs m).env_id) ∧
    ((∀ i, i < NENV → (k.envs i).env_type ≠ t) → ipc_find_env NENV k t = 0) := by
  have hfirst : ∀ i, i < NENV → (k.envs i).env_type = t →
      (∀ j, j < i → (k.envs j).env_type ≠ t) →
      ipc_find_env NENV k t = (k.envs i).env_id := by
    intro i hi ht hlow
    exact ipc_find_env_loop_first k.envs t NENV 0 i (Nat.zero_le i) (by omega) ht
      (fun j _ hj => hlow j hj)
  refine ⟨hfirst, ?_, ?_⟩
  · intro hex
    classical
    have hex2 : ∃ i, i < NENV ∧ (k.envs i).env_type = t := hex
    refine ⟨Nat.find hex2, (Nat.find_spec hex2).1, (Nat.find_spec hex2).2, ?_, ?_⟩
    · intro j hj hjt
      exact Nat.find_min hex2 hj ⟨Nat.lt_trans hj (Nat.find_spec hex2).1, hjt⟩
    · apply hfirst _ (Nat.find_spec hex2).1 (Nat.find_spec hex2).2
      intro j hj hjt
      exact Nat.find_min hex2 hj ⟨Nat.lt_trans hj (Nat.find_spec hex2).1, hjt⟩
  · intro hnone
    exact ipc_find_env_loop_none k.envs t NENV 0 (fun j _ hj => hnone j (by omega))

/-- Witness of C5: in the directory `[TypeA@0, TypeB@1, TypeA@2]` (types `0`,
`1`, `0`; identifiers `0x1000`, `0x1001`, `0x1002`) the lookup of `TypeA`
returns the identifier at index 0 and the lookup of `TypeC` (type `2`)
returns `0`. -/
theorem ipc_find_env_first_match_witness :
    ipc_find_env 3
        ⟨fun _ => 0, 0x1001,
          dirOfList [⟨0x1000, 0, 0, 0, 0⟩, ⟨0x1001, 1, 0, 0, 0⟩, ⟨0x1002, 0, 0, 0, 0⟩]⟩ 0 =
        0x1000 ∧
      ipc_find_env 3
        ⟨fun _ => 0, 0x1001,
          dirOfList [⟨0x1000, 0, 0, 0, 0⟩, ⟨0x1001, 1, 0, 0, 0⟩, ⟨0x1002, 0, 0, 0, 0⟩]⟩ 2 =
        0 := by
  constructor
  · exact (ipc_find_env_first_match 3
      ⟨fun _ => 0, 0x1001,
        dirOfList [⟨0x1000, 0, 0, 0, 0⟩, ⟨0x1001, 1, 0, 0, 0⟩, ⟨0x1002, 0, 0, 0, 0⟩]⟩ 0).1
      0 (by decide) (by decide) (fun j hj => absurd hj (Nat.not_lt_zero j))
  · apply (ipc_find_env_first_match 3
      ⟨fun _ => 0, 0x1001,
        dirOfList [⟨0x1000, 0, 0, 0, 0⟩, ⟨0x1001, 1, 0, 0, 0⟩, ⟨0x1002, 0, 0, 0, 0⟩]⟩ 2).2.2
    intro i hi
    interval_cases i <;> decide

end IPC
